import Mathlib

/-!
Shallow embedding of the certificate-model bridge, CSR builder and
authentication-token protocol of the fabric-sdk-go national-algorithm (SM2)
patch set.  Go byte slices become `List Nat`, Go strings become `String`,
fallible Go functions return `Except String`, and a Go function that can
panic returns `GoResult`.  External primitives (Go standard library
`pem.Decode`, `net.ParseIP`, `mail.ParseAddress`, `asn1.Marshal`, and the
third-party `sm2.ParseCertificate`) are black boxes per the design's
non-goals and are supplied through an explicit `GoEnv` record; the
crypto-suite (hash/sign) is supplied as a `CryptoSuite` record.
-/

namespace FabricGm

/-- Go byte slice. -/
abbrev Bytes := List Nat

/-- Conversion of a Go string to a byte slice, as in the Go expression
that casts a string to bytes before hashing. -/
def strBytes (s : String) : Bytes := s.data.map Char.toNat

/-- The standard base64 alphabet used by Go base64.StdEncoding. -/
def b64Alphabet : List Char :=
  "ABCDEFGHIJKLMNOPQRSTUVWXYZabcdefghijklmnopqrstuvwxyz0123456789+/".data

/-- One base64 digit. -/
def b64Char (n : Nat) : Char := b64Alphabet.getD n 'A'

/-- B64Encode base64 encodes bytes (Go base64.StdEncoding.EncodeToString). -/
def B64Encode : Bytes → String
  | [] => ""
  | [a] =>
      String.mk [b64Char (a / 4 % 64), b64Char (a % 4 * 16), '=', '=']
  | [a, b] =>
      String.mk [b64Char (a / 4 % 64), b64Char (a % 4 * 16 + b / 16 % 16),
                 b64Char (b % 16 * 4), '=']
  | a :: b :: c :: rest =>
      String.mk [b64Char (a / 4 % 64), b64Char (a % 4 * 16 + b / 16 % 16),
                 b64Char (b % 16 * 4 + c / 64 % 4), b64Char (c % 64)]
        ++ B64Encode rest

/-- Elliptic curves distinguished by the SM2 code: the national P256Sm2
curve or some other curve value. -/
inductive SmCurve
  | p256Sm2
  | otherCurve (id : Nat)
deriving DecidableEq, Repr

/-- The dynamic type of a parsed public key, as discriminated by the Go
type switches (ecdsa.PublicKey, sm2.PublicKey, rsa, anything else / nil). -/
inductive PublicKey
  | ecdsa
  | sm2 (curve : SmCurve)
  | rsa
  | other (desc : String)
deriving DecidableEq, Repr

/-- Signature algorithms of the sm2 package used by the CSR builder. -/
inductive SignatureAlgorithm
  | UnknownSignatureAlgorithm
  | SM2WithSM3
  | SM2WithSHA1
  | SM2WithSHA256
deriving DecidableEq, Repr

/-- A pkix.Name distinguished name (copied opaquely by the bridge; only
CommonName is read by the code under study). -/
structure PkixName where
  CommonName : String := ""
  Organization : List String := []
  Country : List String := []
deriving DecidableEq, Repr

/-- A pkix.Extension: object identifier, criticality flag and DER value. -/
structure PkixExtension where
  Id : List Nat
  Critical : Bool
  Value : Bytes
deriving DecidableEq, Repr

/-- An sm2.Certificate (the national representation).  Fields are exactly
those read and written by the bridge's conversion functions; field defaults
are the Go zero values.  Tag fields (SignatureAlgorithm, PublicKeyAlgorithm,
KeyUsage, ExtKeyUsage elements) are Go named integer types and are modelled
as Int. -/
structure Sm2Certificate where
  Raw : Bytes := []
  RawTBSCertificate : Bytes := []
  RawSubjectPublicKeyInfo : Bytes := []
  RawSubject : Bytes := []
  RawIssuer : Bytes := []
  Signature : Bytes := []
  SignatureAlgorithm : Int := 0
  PublicKeyAlgorithm : Int := 0
  PublicKey : PublicKey := .other "nil"
  Version : Int := 0
  SerialNumber : Int := 0
  Issuer : PkixName := {}
  Subject : PkixName := {}
  NotBefore : Int := 0
  NotAfter : Int := 0
  KeyUsage : Int := 0
  Extensions : List PkixExtension := []
  ExtraExtensions : List PkixExtension := []
  UnhandledCriticalExtensions : List (List Nat) := []
  ExtKeyUsage : List Int := []
  UnknownExtKeyUsage : List (List Nat) := []
  BasicConstraintsValid : Bool := false
  IsCA : Bool := false
  MaxPathLen : Int := 0
  MaxPathLenZero : Bool := false
  SubjectKeyId : Bytes := []
  AuthorityKeyId : Bytes := []
  OCSPServer : List String := []
  IssuingCertificateURL : List String := []
  DNSNames : List String := []
  EmailAddresses : List String := []
  IPAddresses : List Bytes := []
  PermittedDNSDomainsCritical : Bool := false
  PermittedDNSDomains : List String := []
  CRLDistributionPoints : List String := []
  PolicyIdentifiers : List (List Nat) := []
deriving DecidableEq, Repr

/-- An x509.Certificate (the standard representation); same field list as
`Sm2Certificate`, with the tag fields in the x509 enum namespace. -/
structure X509Certificate where
  Raw : Bytes := []
  RawTBSCertificate : Bytes := []
  RawSubjectPublicKeyInfo : Bytes := []
  RawSubject : Bytes := []
  RawIssuer : Bytes := []
  Signature : Bytes := []
  SignatureAlgorithm : Int := 0
  PublicKeyAlgorithm : Int := 0
  PublicKey : PublicKey := .other "nil"
  Version : Int := 0
  SerialNumber : Int := 0
  Issuer : PkixName := {}
  Subject : PkixName := {}
  NotBefore : Int := 0
  NotAfter : Int := 0
  KeyUsage : Int := 0
  Extensions : List PkixExtension := []
  ExtraExtensions : List PkixExtension := []
  UnhandledCriticalExtensions : List (List Nat) := []
  ExtKeyUsage : List Int := []
  UnknownExtKeyUsage : List (List Nat) := []
  BasicConstraintsValid : Bool := false
  IsCA : Bool := false
  MaxPathLen : Int := 0
  MaxPathLenZero : Bool := false
  SubjectKeyId : Bytes := []
  AuthorityKeyId : Bytes := []
  OCSPServer : List String := []
  IssuingCertificateURL : List String := []
  DNSNames : List String := []
  EmailAddresses : List String := []
  IPAddresses : List Bytes := []
  PermittedDNSDomainsCritical : Bool := false
  PermittedDNSDomains : List String := []
  CRLDistributionPoints : List String := []
  PolicyIdentifiers : List (List Nat) := []
deriving DecidableEq, Repr

/-- Go conversion x509.SignatureAlgorithm(a) from an sm2.SignatureAlgorithm:
a numeric conversion between two named int types, i.e. the identity on the
underlying integer. -/
def x509SignatureAlgorithmOf (a : Int) : Int := a

/-- Go conversion sm2.SignatureAlgorithm(a) from an x509.SignatureAlgorithm. -/
def sm2SignatureAlgorithmOf (a : Int) : Int := a

/-- Go conversion x509.PublicKeyAlgorithm(a) from sm2.PublicKeyAlgorithm. -/
def x509PublicKeyAlgorithmOf (a : Int) : Int := a

/-- Go conversion sm2.PublicKeyAlgorithm(a) from x509.PublicKeyAlgorithm. -/
def sm2PublicKeyAlgorithmOf (a : Int) : Int := a

/-- Go conversion x509.KeyUsage(a) from sm2.KeyUsage. -/
def x509KeyUsageOf (a : Int) : Int := a

/-- Go conversion sm2.KeyUsage(a) from x509.KeyUsage. -/
def sm2KeyUsageOf (a : Int) : Int := a

/-- Go conversion x509.ExtKeyUsage(a) from sm2.ExtKeyUsage (per element). -/
def x509ExtKeyUsageOf (a : Int) : Int := a

/-- Go conversion sm2.ExtKeyUsage(a) from x509.ExtKeyUsage (per element). -/
def sm2ExtKeyUsageOf (a : Int) : Int := a

/-- The per-element extended-key-usage copy loop: starting from the zero
value nil, append the cast of each source element in order. -/
def appendExtKeyUsages (cast : Int → Int) (src : List Int) : List Int :=
  src.foldl (fun acc val => acc ++ [cast val]) []

/-- ParseSm2Certificate2X509 converts an sm2 certificate to an x509
certificate, copying every field and reinterpreting the tag enums; the
extended-key-usage list is rebuilt per element by the append loop. -/
def ParseSm2Certificate2X509 (sm2Cert : Sm2Certificate) : X509Certificate :=
  { Raw := sm2Cert.Raw
    RawTBSCertificate := sm2Cert.RawTBSCertificate
    RawSubjectPublicKeyInfo := sm2Cert.RawSubjectPublicKeyInfo
    RawSubject := sm2Cert.RawSubject
    RawIssuer := sm2Cert.RawIssuer
    Signature := sm2Cert.Signature
    SignatureAlgorithm := x509SignatureAlgorithmOf sm2Cert.SignatureAlgorithm
    PublicKeyAlgorithm := x509PublicKeyAlgorithmOf sm2Cert.PublicKeyAlgorithm
    PublicKey := sm2Cert.PublicKey
    Version := sm2Cert.Version
    SerialNumber := sm2Cert.SerialNumber
    Issuer := sm2Cert.Issuer
    Subject := sm2Cert.Subject
    NotBefore := sm2Cert.NotBefore
    NotAfter := sm2Cert.NotAfter
    KeyUsage := x509KeyUsageOf sm2Cert.KeyUsage
    Extensions := sm2Cert.Extensions
    ExtraExtensions := sm2Cert.ExtraExtensions
    UnhandledCriticalExtensions := sm2Cert.UnhandledCriticalExtensions
    ExtKeyUsage := appendExtKeyUsages x509ExtKeyUsageOf sm2Cert.ExtKeyUsage
    UnknownExtKeyUsage := sm2Cert.UnknownExtKeyUsage
    BasicConstraintsValid := sm2Cert.BasicConstraintsValid
    IsCA := sm2Cert.IsCA
    MaxPathLen := sm2Cert.MaxPathLen
    MaxPathLenZero := sm2Cert.MaxPathLenZero
    SubjectKeyId := sm2Cert.SubjectKeyId
    AuthorityKeyId := sm2Cert.AuthorityKeyId
    OCSPServer := sm2Cert.OCSPServer
    IssuingCertificateURL := sm2Cert.IssuingCertificateURL
    DNSNames := sm2Cert.DNSNames
    EmailAddresses := sm2Cert.EmailAddresses
    IPAddresses := sm2Cert.IPAddresses
    PermittedDNSDomainsCritical := sm2Cert.PermittedDNSDomainsCritical
    PermittedDNSDomains := sm2Cert.PermittedDNSDomains
    CRLDistributionPoints := sm2Cert.CRLDistributionPoints
    PolicyIdentifiers := sm2Cert.PolicyIdentifiers }

/-- ParseX509Certificate2Sm2 converts an x509 certificate to an sm2
certificate, copying every field and reinterpreting the tag enums; the
extended-key-usage list is rebuilt per element by the append loop. -/
def ParseX509Certificate2Sm2 (x509Cert : X509Certificate) : Sm2Certificate :=
  { Raw := x509Cert.Raw
    RawTBSCertificate := x509Cert.RawTBSCertificate
    RawSubjectPublicKeyInfo := x509Cert.RawSubjectPublicKeyInfo
    RawSubject := x509Cert.RawSubject
    RawIssuer := x509Cert.RawIssuer
    Signature := x509Cert.Signature
    SignatureAlgorithm := sm2SignatureAlgorithmOf x509Cert.SignatureAlgorithm
    PublicKeyAlgorithm := sm2PublicKeyAlgorithmOf x509Cert.PublicKeyAlgorithm
    PublicKey := x509Cert.PublicKey
    Version := x509Cert.Version
    SerialNumber := x509Cert.SerialNumber
    Issuer := x509Cert.Issuer
    Subject := x509Cert.Subject
    NotBefore := x509Cert.NotBefore
    NotAfter := x509Cert.NotAfter
    KeyUsage := sm2KeyUsageOf x509Cert.KeyUsage
    Extensions := x509Cert.Extensions
    ExtraExtensions := x509Cert.ExtraExtensions
    UnhandledCriticalExtensions := x509Cert.UnhandledCriticalExtensions
    ExtKeyUsage := appendExtKeyUsages sm2ExtKeyUsageOf x509Cert.ExtKeyUsage
    UnknownExtKeyUsage := x509Cert.UnknownExtKeyUsage
    BasicConstraintsValid := x509Cert.BasicConstraintsValid
    IsCA := x509Cert.IsCA
    MaxPathLen := x509Cert.MaxPathLen
    MaxPathLenZero := x509Cert.MaxPathLenZero
    SubjectKeyId := x509Cert.SubjectKeyId
    AuthorityKeyId := x509Cert.AuthorityKeyId
    OCSPServer := x509Cert.OCSPServer
    IssuingCertificateURL := x509Cert.IssuingCertificateURL
    DNSNames := x509Cert.DNSNames
    EmailAddresses := x509Cert.EmailAddresses
    IPAddresses := x509Cert.IPAddresses
    PermittedDNSDomainsCritical := x509Cert.PermittedDNSDomainsCritical
    PermittedDNSDomains := x509Cert.PermittedDNSDomains
    CRLDistributionPoints := x509Cert.CRLDistributionPoints
    PolicyIdentifiers := x509Cert.PolicyIdentifiers }

/-- A mail.Address as returned by the Go standard library address parser;
Address is the canonical address text. -/
structure MailAddress where
  Name : String := ""
  Address : String := ""
deriving DecidableEq, Repr

/-- A pem.Block as returned by pem.Decode; the Go field Type is renamed
BlockType because Type is a Lean keyword. -/
structure PemBlock where
  BlockType : String := ""
  Bytes : Bytes := []
deriving DecidableEq, Repr

/-- The cfssl csr.BasicConstraints structure handed to asn1.Marshal. -/
structure BasicConstraints where
  IsCA : Bool
  MaxPathLen : Int
deriving DecidableEq, Repr

/-- The cfssl csr.CAConfig carried by a certificate-request template. -/
structure CAConfig where
  PathLength : Int := 0
  PathLenZero : Bool := false
deriving DecidableEq, Repr

/-- A cfssl csr.CertificateRequest template: subject name (the result of
the template's Name() accessor), ordered host strings, optional CA
configuration and the (inert) serial-number field. -/
structure CertificateRequest where
  name : PkixName := {}
  Hosts : List String := []
  CA : Option CAConfig := none
  SerialNumber : String := ""
deriving DecidableEq, Repr

/-- An sm2.CertificateRequest under construction by the CSR builder. -/
structure Sm2CertificateRequest where
  Subject : PkixName := {}
  SignatureAlgorithm : SignatureAlgorithm := .UnknownSignatureAlgorithm
  IPAddresses : List Bytes := []
  EmailAddresses : List String := []
  DNSNames : List String := []
  ExtraExtensions : List PkixExtension := []
deriving DecidableEq, Repr

/-- A crypto.Signer as seen by the CSR builder: only its Public() method is
consulted, so it is modelled by the dynamic type of that public key. -/
structure Signer where
  public : PublicKey
deriving DecidableEq, Repr

/-- A bccsp.Key handed to the CSR builder, together with the signing
capability the backing crypto provider binds to it (spec 4.1). -/
structure BccspKey where
  sign : Bytes → Except String Bytes

/-- A core.Key handle passed to the token crypto suite. -/
structure CoreKey where
  ski : Nat := 0
deriving DecidableEq, Repr

/-- The core.CryptoSuite capabilities the token protocol uses: Hash with
the default SHA options and Sign with a key. -/
structure CryptoSuite where
  hash : Bytes → Except String Bytes
  sign : CoreKey → Bytes → Except String Bytes

/-- The external Go-library primitives the embedded code calls, assumed
available as black boxes per the design's non-goals: pem.Decode,
sm2.ParseCertificate, net.ParseIP, mail.ParseAddress (condition
err == nil and email non-nil becomes an Option), and asn1.Marshal of a
csr.BasicConstraints value. -/
structure GoEnv where
  pemDecode : Bytes → Option PemBlock
  sm2ParseCertificate : Bytes → Except String Sm2Certificate
  parseIP : String → Option Bytes
  parseAddress : String → Option MailAddress
  asn1MarshalBasicConstraints : BasicConstraints → Except String Bytes

/-- signerAlgo resolves the signature algorithm from the signing key's
public type: an sm2 public key yields SM2WithSM3 on the P256Sm2 curve and
also (the default branch of the inner switch) on any other curve; any other
key type yields UnknownSignatureAlgorithm. -/
def signerAlgo (priv : Signer) : SignatureAlgorithm :=
  match priv.public with
  | .sm2 curve =>
    match curve with
    | .p256Sm2 => .SM2WithSM3
    | _ => .SM2WithSM3
  | _ => .UnknownSignatureAlgorithm

/-- appendCAInfoToCSRSm2 appends the CAConfig BasicConstraint extension to
a CSR: the path length is rewritten to -1 when it is 0 and PathLenZero is
false, the constraint is DER-marshalled, a marshalling error is returned,
and otherwise the request's extra extensions are set to the single critical
extension with OID 2.5.29.19.  The Go function mutates the request; here it
returns the updated request. -/
def appendCAInfoToCSRSm2 (env : GoEnv) (reqConf : CAConfig)
    (csreq : Sm2CertificateRequest) : Except String Sm2CertificateRequest :=
  let pathlen := if reqConf.PathLength = 0 ∧ reqConf.PathLenZero = false
                 then -1 else reqConf.PathLength
  match env.asn1MarshalBasicConstraints { IsCA := true, MaxPathLen := pathlen } with
  | .error e => .error e
  | .ok val =>
      .ok { csreq with
              ExtraExtensions := [{ Id := [2, 5, 29, 19], Critical := true, Value := val }] }

/-- One iteration of the host-classification loop in generate: an IP
literal goes to IPAddresses, otherwise a parseable mail address's canonical
address goes to EmailAddresses, otherwise the string goes to DNSNames. -/
def classifyStep (env : GoEnv) (tpl : Sm2CertificateRequest) (h : String) :
    Sm2CertificateRequest :=
  match env.parseIP h with
  | some ip => { tpl with IPAddresses := tpl.IPAddresses ++ [ip] }
  | none =>
    match env.parseAddress h with
    | some email => { tpl with EmailAddresses := tpl.EmailAddresses ++ [email.Address] }
    | none => { tpl with DNSNames := tpl.DNSNames ++ [h] }

/-- buildTpl is the template-construction phase of generate: gate on the
resolved signature algorithm, classify each host in order, and append the
CA basic-constraints extension when the template carries CA configuration
(wrapping its error); the inert serial-number branch does nothing. -/
def buildTpl (env : GoEnv) (priv : Signer) (req : CertificateRequest) :
    Except String Sm2CertificateRequest :=
  let sigAlgo := signerAlgo priv
  if sigAlgo = .UnknownSignatureAlgorithm then
    .error "Private key is unavailable "
  else
    let tpl0 : Sm2CertificateRequest :=
      { Subject := req.name, SignatureAlgorithm := sigAlgo }
    let tpl := req.Hosts.foldl (classifyStep env) tpl0
    match req.CA with
    | none => .ok tpl
    | some ca =>
      match appendCAInfoToCSRSm2 env ca tpl with
      | .error e => .error ("failed to appendCAInfoToCSRSm2 :" ++ e)
      | .ok tpl2 => .ok tpl2

/-- Modelled from the spec: the DER serialisation of a certificate request
performed inside gm.CreateSm2CertificateRequestToMem (repository code not
under src/).  The encoding itself is a black box; it is modelled as an
always-nonempty byte rendering opening with the DER SEQUENCE tag 0x30. -/
def encodeCertificateRequest (tpl : Sm2CertificateRequest) : Bytes :=
  48 :: strBytes tpl.Subject.CommonName

/-- Modelled from the spec: gm.CreateSm2CertificateRequestToMem is
repository code not under src/.  Per spec section 4.3 step 6 and section 7
it signs the DER-encoded request with the supplied key, propagates a
signing failure, rejects a zero-length signature as a first-class
EmptySignature failure, and otherwise returns the serialized request. -/
def CreateSm2CertificateRequestToMem (tpl : Sm2CertificateRequest)
    (key : BccspKey) : Except String Bytes :=
  match key.sign (encodeCertificateRequest tpl) with
  | .error e => .error e
  | .ok sig =>
    if sig.length = 0 then
      .error "sm2 CSR signing failed. Signature must be different than nil"
    else
      .ok (encodeCertificateRequest tpl ++ sig)

/-- generate converts a cloudflare certificate request into a national
(SM2) certificate request and signs it: resolve the algorithm from the
private key (failing when it is unknown), build the template (hosts, CA
info), and hand the template to CreateSm2CertificateRequestToMem. -/
def generate (env : GoEnv) (priv : Signer) (req : CertificateRequest)
    (key : BccspKey) : Except String Bytes :=
  match buildTpl env priv req with
  | .error e => .error e
  | .ok tpl => CreateSm2CertificateRequestToMem tpl key

/-- genECDSAToken hashes the payload with the suite's default SHA options,
signs the digest with the caller's key, rejects a zero-length signature,
and emits base64(cert) dot base64(signature).  Error wrapping (the Go
errors.WithMessage) is modelled as message-prefix concatenation. -/
def genECDSAToken (csp : CryptoSuite) (key : CoreKey) (b64cert payload : String) :
    Except String String :=
  match csp.hash (strBytes payload) with
  | .error e => .error ("Hash failed on " ++ payload ++ ": " ++ e)
  | .ok digest =>
    match csp.sign key digest with
    | .error e => .error ("BCCSP signature generation failure: " ++ e)
    | .ok ecSignature =>
      if ecSignature.length = 0 then
        .error "BCCSP signature creation failed. Signature must be different than nil"
      else
        .ok (b64cert ++ "." ++ B64Encode ecSignature)

/-- GenECDSAToken assembles the token payload — the modern four-part
payload, overwritten by the two-part legacy payload when the Fabric-CA
compatibility flag is set — and delegates to genECDSAToken. -/
def GenECDSAToken (csp : CryptoSuite) (cert : Bytes) (key : CoreKey)
    (method uri : String) (body : Bytes) (fabCACompatibilityMode : Bool) :
    Except String String :=
  let b64body := B64Encode body
  let b64cert := B64Encode cert
  let b64uri := B64Encode (strBytes uri)
  let payload0 := method ++ "." ++ b64uri ++ "." ++ b64body ++ "." ++ b64cert
  let payload := if fabCACompatibilityMode then b64body ++ "." ++ b64cert else payload0
  genECDSAToken csp key b64cert payload

/-- GetX509CertificateFromPEM PEM-decodes the input (failing when no block
is found), parses the block bytes with the national sm2 DER parser, and on
parse success converts to the standard representation; on parse failure the
certificate pointer stays nil and no error is returned.  The nil pointer
becomes Option.none. -/
def GetX509CertificateFromPEM (env : GoEnv) (cert : Bytes) :
    Except String (Option X509Certificate) :=
  match env.pemDecode cert with
  | none => .error "Failed to PEM decode certificate"
  | some block =>
    match env.sm2ParseCertificate block.Bytes with
    | .ok sm2x509Cert => .ok (some (ParseSm2Certificate2X509 sm2x509Cert))
    | .error _ => .ok none

/-- The outcome of a Go call observed by its caller: a normal return with
a value and nil error, a normal return of the zero value with a non-nil
error, or a runtime panic (such as a nil-pointer dereference). -/
inductive GoResult (α : Type)
  | ok (val : α)
  | err (msg : String)
  | panic (msg : String)
deriving DecidableEq, Repr

/-- Embedding of a (value, error) return into GoResult. -/
def toGoResult : Except String String → GoResult String
  | .error e => .err e
  | .ok t => .ok t

/-- The Go runtime message for dereferencing a nil pointer. -/
def nilDeref : String :=
  "runtime error: invalid memory address or nil pointer dereference"

/-- GetEnrollmentIDFromX509Certificate returns the certificate subject's
common name; reading Subject through a nil certificate pointer is a
runtime nil-pointer panic. -/
def GetEnrollmentIDFromX509Certificate (cert : Option X509Certificate) :
    GoResult String :=
  match cert with
  | none => .panic nilDeref
  | some c => .ok c.Subject.CommonName

/-- GetEnrollmentIDFromPEM parses the PEM buffer and returns the
enrollment ID of the resulting certificate with a nil error. -/
def GetEnrollmentIDFromPEM (env : GoEnv) (cert : Bytes) : GoResult String :=
  match GetX509CertificateFromPEM env cert with
  | .error e => .err e
  | .ok x509Cert => GetEnrollmentIDFromX509Certificate x509Cert

/-- CreateToken parses the PEM certificate, reads its PublicKey field
(a nil-pointer panic when the parsed certificate is nil), and switches on
the key's dynamic type: ecdsa and sm2 keys both route to GenECDSAToken;
any other type leaves the token empty and returns it with a nil error. -/
def CreateToken (env : GoEnv) (csp : CryptoSuite) (cert : Bytes) (key : CoreKey)
    (method uri : String) (body : Bytes) (fabCACompatibilityMode : Bool) :
    GoResult String :=
  match GetX509CertificateFromPEM env cert with
  | .error e => .err e
  | .ok none => .panic nilDeref
  | .ok (some x509Cert) =>
    match x509Cert.PublicKey with
    | .ecdsa =>
        toGoResult (GenECDSAToken csp cert key method uri body fabCACompatibilityMode)
    | .sm2 _ =>
        toGoResult (GenECDSAToken csp cert key method uri body fabCACompatibilityMode)
    | _ => .ok ""

/-- The append loop over a list starting from nil is the element-wise map. -/
theorem appendExtKeyUsages_eq_map (cast : Int → Int) (src : List Int) :
    appendExtKeyUsages cast src = src.map cast := by
  have key : ∀ (l : List Int) (acc : List Int),
      l.foldl (fun acc val => acc ++ [cast val]) acc = acc ++ l.map cast := by
    intro l
    induction l with
    | nil => intro acc; simp
    | cons a t ih => intro acc; simp [ih]
  simpa [appendExtKeyUsages] using key src []

/-- C1: converting a national certificate to the standard representation
and back yields the original certificate field-for-field, and symmetrically
for standard certificates; each single conversion reinterprets the
extended-key-usage list per element through the enum casts and the
round trip restores it. -/
theorem c1_certificate_bridge_roundtrip (c : Sm2Certificate) (d : X509Certificate) :
    ParseX509Certificate2Sm2 (ParseSm2Certificate2X509 c) = c
    ∧ ParseSm2Certificate2X509 (ParseX509Certificate2Sm2 d) = d
    ∧ (ParseSm2Certificate2X509 c).ExtKeyUsage = c.ExtKeyUsage.map x509ExtKeyUsageOf
    ∧ (ParseX509Certificate2Sm2 d).ExtKeyUsage = d.ExtKeyUsage.map sm2ExtKeyUsageOf := by
  refine ⟨?_, ?_, ?_, ?_⟩
  · cases c
    simp [ParseSm2Certificate2X509, ParseX509Certificate2Sm2, appendExtKeyUsages_eq_map,
      x509SignatureAlgorithmOf, sm2SignatureAlgorithmOf, x509PublicKeyAlgorithmOf,
      sm2PublicKeyAlgorithmOf, x509KeyUsageOf, sm2KeyUsageOf, x509ExtKeyUsageOf,
      sm2ExtKeyUsageOf, Function.comp_def]
  · cases d
    simp [ParseSm2Certificate2X509, ParseX509Certificate2Sm2, appendExtKeyUsages_eq_map,
      x509SignatureAlgorithmOf, sm2SignatureAlgorithmOf, x509PublicKeyAlgorithmOf,
      sm2PublicKeyAlgorithmOf, x509KeyUsageOf, sm2KeyUsageOf, x509ExtKeyUsageOf,
      sm2ExtKeyUsageOf, Function.comp_def]
  · simp [ParseSm2Certificate2X509, appendExtKeyUsages_eq_map]
  · simp [ParseX509Certificate2Sm2, appendExtKeyUsages_eq_map]

/-- C2: the token builder hashes exactly the two-part legacy payload when
the compatibility flag is set and exactly the four-part modern payload
otherwise, and on success emits base64(cert) dot base64(signature). -/
theorem c2_token_payload_and_emission (csp : CryptoSuite) (cert : Bytes) (key : CoreKey)
    (method uri : String) (body : Bytes) :
    GenECDSAToken csp cert key method uri body true
      = genECDSAToken csp key (B64Encode cert)
          (B64Encode body ++ "." ++ B64Encode cert)
    ∧ GenECDSAToken csp cert key method uri body false
      = genECDSAToken csp key (B64Encode cert)
          (method ++ "." ++ B64Encode (strBytes uri) ++ "." ++ B64Encode body
            ++ "." ++ B64Encode cert)
    ∧ (∀ b64cert payload digest sig,
        csp.hash (strBytes payload) = .ok digest →
        csp.sign key digest = .ok sig →
        sig ≠ [] →
        genECDSAToken csp key b64cert payload = .ok (b64cert ++ "." ++ B64Encode sig)) := by
  refine ⟨rfl, rfl, ?_⟩
  intro b64cert payload digest sig hh hs hne
  simp [genECDSAToken, hh, hs, List.length_eq_zero, hne]

/-- C4 counterexample: an sm2 public key on an unrecognized curve resolves
to SM2WithSM3 through the default branch of the inner curve switch, not to
UnknownSignatureAlgorithm as the claim states. -/
theorem c4_counterexample :
    signerAlgo { public := .sm2 (.otherCurve 0) } = .SM2WithSM3
    ∧ SignatureAlgorithm.SM2WithSM3 ≠ SignatureAlgorithm.UnknownSignatureAlgorithm := by
  exact ⟨rfl, by decide⟩

/-- C4 amended: signature-algorithm resolution yields
UnknownSignatureAlgorithm exactly when the public key is not of the
national sm2 family, and yields SM2WithSM3 for every sm2 public key,
whatever its curve (recognized or not). -/
theorem c4_signer_algo_amended (priv : Signer) :
    (signerAlgo priv = .UnknownSignatureAlgorithm ↔ ∀ curve, priv.public ≠ .sm2 curve)
    ∧ (∀ curve, priv.public = .sm2 curve → signerAlgo priv = .SM2WithSM3) := by
  obtain ⟨pub⟩ := priv
  cases pub with
  | sm2 curve =>
    constructor
    · constructor
      · intro h
        cases curve <;> simp [signerAlgo] at h
      · intro h
        exact absurd rfl (h curve)
    · intro c hc
      cases curve <;> simp [signerAlgo]
  | ecdsa => simp [signerAlgo]
  | rsa => simp [signerAlgo]
  | other s => simp [signerAlgo]

/-- C4 amended witness: a plain ecdsa key resolves to the unknown
algorithm, and an sm2 key on an unrecognized curve resolves to SM2WithSM3. -/
theorem c4_signer_algo_amended_witness :
    signerAlgo { public := .ecdsa } = .UnknownSignatureAlgorithm
    ∧ signerAlgo { public := .sm2 (.otherCurve 5) } = .SM2WithSM3 :=
  ⟨(c4_signer_algo_amended { public := .ecdsa }).1.mpr
      (fun _ hc => PublicKey.noConfusion hc),
   (c4_signer_algo_amended { public := .sm2 (.otherCurve 5) }).2 (.otherCurve 5) rfl⟩

/-- C3: for a signing key whose public type is not the national sm2
family, generate fails with the key-unavailable error, and its result does
not depend on the template, the bccsp key, or any of the external host
parsers — no classification, subject construction or extension encoding
influences the outcome and no partial result is returned. -/
theorem c3_generate_gates_on_key_type (env env2 : GoEnv) (priv : Signer)
    (req req2 : CertificateRequest) (key key2 : BccspKey)
    (h : ∀ curve, priv.public ≠ .sm2 curve) :
    signerAlgo priv = .UnknownSignatureAlgorithm
    ∧ generate env priv req key = .error "Private key is unavailable "
    ∧ generate env priv req key = generate env2 priv req2 key2 := by
  have halg : signerAlgo priv = .UnknownSignatureAlgorithm := by
    cases hp : priv.public with
    | sm2 curve => exact absurd hp (h curve)
    | ecdsa => simp [signerAlgo, hp]
    | rsa => simp [signerAlgo, hp]
    | other s => simp [signerAlgo, hp]
  refine ⟨halg, ?_, ?_⟩ <;> simp [generate, buildTpl, halg]

/-- C3 witness environment: every external primitive fails or returns
nothing. -/
def envNil : GoEnv :=
  { pemDecode := fun _ => none
    sm2ParseCertificate := fun _ => .error "asn1 parse failure"
    parseIP := fun _ => none
    parseAddress := fun _ => none
    asn1MarshalBasicConstraints := fun _ => .ok [] }

/-- A bccsp key whose provider always fails to sign. -/
def keyFail : BccspKey := { sign := fun _ => .error "no key material" }

/-- C3 witness: a plain ecdsa signing key makes generate fail with the
key-unavailable error on any template. -/
theorem c3_generate_gates_witness :
    signerAlgo { public := .ecdsa } = .UnknownSignatureAlgorithm
    ∧ generate envNil { public := .ecdsa } {} keyFail
        = .error "Private key is unavailable "
    ∧ generate envNil { public := .ecdsa } {} keyFail
        = generate envNil { public := .ecdsa } { Hosts := ["h"] } keyFail :=
  c3_generate_gates_on_key_type envNil envNil { public := .ecdsa } {}
    { Hosts := ["h"] } keyFail keyFail (fun _ hc => PublicKey.noConfusion hc)

/-- The host-classification loop appends, in template order, the parsed IP
literals to IPAddresses, the canonical addresses of the remaining strings
that parse as mail addresses to EmailAddresses, and everything else
verbatim to DNSNames, leaving the other template fields unchanged. -/
theorem classify_foldl (env : GoEnv) (hosts : List String)
    (tpl : Sm2CertificateRequest) :
    hosts.foldl (classifyStep env) tpl =
      { tpl with
          IPAddresses := tpl.IPAddresses ++ hosts.filterMap env.parseIP
          EmailAddresses := tpl.EmailAddresses ++ hosts.filterMap (fun h =>
            match env.parseIP h with
            | some _ => none
            | none => (env.parseAddress h).map MailAddress.Address)
          DNSNames := tpl.DNSNames ++ hosts.filter (fun h =>
            (env.parseIP h).isNone && (env.parseAddress h).isNone) } := by
  induction hosts generalizing tpl with
  | nil => simp
  | cons h t ih =>
    rw [List.foldl_cons, ih]
    cases hip : env.parseIP h with
    | some ip => simp [classifyStep, hip, List.filterMap_cons, List.filter_cons]
    | none =>
      cases hea : env.parseAddress h with
      | some email => simp [classifyStep, hip, hea, List.filterMap_cons, List.filter_cons]
      | none => simp [classifyStep, hip, hea, List.filterMap_cons, List.filter_cons]

/-- Appending the CA basic-constraints extension only rewrites the extra
extensions of the request; the SAN lists and the other fields survive. -/
theorem appendCAInfo_preserves_san (env : GoEnv) (ca : CAConfig)
    (csreq tpl2 : Sm2CertificateRequest)
    (h : appendCAInfoToCSRSm2 env ca csreq = .ok tpl2) :
    tpl2.IPAddresses = csreq.IPAddresses
    ∧ tpl2.EmailAddresses = csreq.EmailAddresses
    ∧ tpl2.DNSNames = csreq.DNSNames := by
  simp only [appendCAInfoToCSRSm2] at h
  split at h
  · exact absurd h (by simp)
  · rw [Except.ok.injEq] at h
    subst h
    simp

/-- C5: whenever template construction succeeds, the produced request's
IP-address list is exactly the hosts that parse as IP literals (in
template order), its email list is exactly the canonical addresses of the
hosts that do not parse as IPs but parse as mail addresses, and its DNS
list is exactly the remaining hosts verbatim — first-match-only
classification in the order IP, then email, then DNS fallback; as a pure
function of the template and the parsers, the classification is the same
on every run. -/
theorem c5_host_classification (env : GoEnv) (priv : Signer)
    (req : CertificateRequest) (tpl : Sm2CertificateRequest)
    (h : buildTpl env priv req = .ok tpl) :
    tpl.IPAddresses = req.Hosts.filterMap env.parseIP
    ∧ tpl.EmailAddresses = req.Hosts.filterMap (fun h =>
        match env.parseIP h with
        | some _ => none
        | none => (env.parseAddress h).map MailAddress.Address)
    ∧ tpl.DNSNames = req.Hosts.filter (fun h =>
        (env.parseIP h).isNone && (env.parseAddress h).isNone) := by
  unfold buildTpl at h
  by_cases halg : signerAlgo priv = .UnknownSignatureAlgorithm
  · simp [halg] at h
  · rw [if_neg halg] at h
    simp only [classify_foldl] at h
    split at h
    · rw [Except.ok.injEq] at h
      subst h
      simp
    · split at h
      · exact absurd h (by simp)
      · rename_i tpl2 happ
        rw [Except.ok.injEq] at h
        subst h
        obtain ⟨h1, h2, h3⟩ := appendCAInfo_preserves_san _ _ _ _ happ
        rw [h1, h2, h3]
        simp

/-- C6: on CA configuration the builder marshals a basic-constraints value
with isCA true and the configured path length — rewritten to the
unconstrained value -1 when the length is 0 and the zero-length flag is
false — and attaches exactly one critical extra extension with OID
2.5.29.19 carrying that DER payload; a marshalling failure is returned and
aborts CSR construction with the wrapped error. -/
theorem c6_basic_constraints_extension (env : GoEnv) (reqConf : CAConfig)
    (csreq : Sm2CertificateRequest) :
    (∀ val,
      env.asn1MarshalBasicConstraints
          { IsCA := true,
            MaxPathLen := if reqConf.PathLength = 0 ∧ reqConf.PathLenZero = false
                          then -1 else reqConf.PathLength } = .ok val →
      appendCAInfoToCSRSm2 env reqConf csreq =
        .ok { csreq with
                ExtraExtensions :=
                  [{ Id := [2, 5, 29, 19], Critical := true, Value := val }] })
    ∧ (∀ e,
      env.asn1MarshalBasicConstraints
          { IsCA := true,
            MaxPathLen := if reqConf.PathLength = 0 ∧ reqConf.PathLenZero = false
                          then -1 else reqConf.PathLength } = .error e →
      appendCAInfoToCSRSm2 env reqConf csreq = .error e
      ∧ ∀ (priv : Signer) (req : CertificateRequest) (key : BccspKey) (curve : SmCurve),
          priv.public = .sm2 curve → req.CA = some reqConf →
          generate env priv req key
            = .error ("failed to appendCAInfoToCSRSm2 :" ++ e)) := by
  constructor
  · intro val hv
    simp only [appendCAInfoToCSRSm2, hv]
  · intro e he
    have herr : ∀ cs : Sm2CertificateRequest,
        appendCAInfoToCSRSm2 env reqConf cs = .error e := by
      intro cs
      simp only [appendCAInfoToCSRSm2, he]
    refine ⟨herr csreq, ?_⟩
    intro priv req key curve hpub hca
    have halg : signerAlgo priv = .SM2WithSM3 := by
      obtain ⟨pub⟩ := priv
      simp only at hpub
      subst hpub
      cases curve <;> rfl
    simp [generate, buildTpl, halg, hca, herr]

/-- C7: a zero-length provider signature makes both the token signer and
the CSR serializer fail with their empty-signature errors, and neither the
token path nor the CSR path can ever succeed with an empty token or an
empty request. -/
theorem c7_empty_signature_rejection (csp : CryptoSuite) (key : CoreKey)
    (b64cert payload : String) (env : GoEnv) (priv : Signer)
    (req : CertificateRequest) (bkey : BccspKey) :
    (∀ digest, csp.hash (strBytes payload) = .ok digest →
      csp.sign key digest = .ok [] →
      genECDSAToken csp key b64cert payload
        = .error "BCCSP signature creation failed. Signature must be different than nil")
    ∧ (∀ tpl : Sm2CertificateRequest,
        bkey.sign (encodeCertificateRequest tpl) = .ok [] →
        CreateSm2CertificateRequestToMem tpl bkey
          = .error "sm2 CSR signing failed. Signature must be different than nil")
    ∧ ((∀ b, bkey.sign b = .ok []) → ∀ bs, generate env priv req bkey ≠ .ok bs)
    ∧ (∀ t, genECDSAToken csp key b64cert payload = .ok t → t ≠ "")
    ∧ (∀ bs, generate env priv req bkey = .ok bs → bs ≠ []) := by
  refine ⟨?_, ?_, ?_, ?_, ?_⟩
  · intro digest hh hs
    simp [genECDSAToken, hh, hs]
  · intro tpl hsig
    simp [CreateSm2CertificateRequestToMem, hsig]
  · intro hall bs hok
    unfold generate at hok
    split at hok
    · exact absurd hok (by simp)
    · rename_i tpl htpl
      unfold CreateSm2CertificateRequestToMem at hok
      rw [hall (encodeCertificateRequest tpl)] at hok
      simp at hok
  · intro t hok
    unfold genECDSAToken at hok
    split at hok
    · exact absurd hok (by simp)
    · rename_i digest hdig
      split at hok
      · exact absurd hok (by simp)
      · rename_i sig hsig
        split at hok
        · exact absurd hok (by simp)
        · rw [Except.ok.injEq] at hok
          subst hok
          intro hempty
          have hl := congrArg String.length hempty
          rw [String.length_append, String.length_append] at hl
          have hdot : (".").length = 1 := rfl
          have hemp : ("" : String).length = 0 := rfl
          omega
  · intro bs hok
    unfold generate at hok
    split at hok
    · exact absurd hok (by simp)
    · rename_i tpl htpl
      unfold CreateSm2CertificateRequestToMem at hok
      split at hok
      · exact absurd hok (by simp)
      · rename_i sig hsig
        split at hok
        · exact absurd hok (by simp)
        · rw [Except.ok.injEq] at hok
          subst hok
          simp [encodeCertificateRequest]

/-- C8: PEM certificate loading fails exactly when no PEM block can be
decoded from the input; when a block is found but the national DER parser
rejects its contents, the function returns a nil certificate together with
a nil error. -/
theorem c8_pem_error_iff_no_block (env : GoEnv) (cert : Bytes) :
    (env.pemDecode cert = none →
      GetX509CertificateFromPEM env cert = .error "Failed to PEM decode certificate")
    ∧ (∀ e, GetX509CertificateFromPEM env cert = .error e →
      env.pemDecode cert = none)
    ∧ (∀ block e, env.pemDecode cert = some block →
      env.sm2ParseCertificate block.Bytes = .error e →
      GetX509CertificateFromPEM env cert = .ok none) := by
  refine ⟨?_, ?_, ?_⟩
  · intro h
    simp [GetX509CertificateFromPEM, h]
  · intro e h
    unfold GetX509CertificateFromPEM at h
    cases hd : env.pemDecode cert with
    | none => rfl
    | some block =>
      rw [hd] at h
      cases hp : env.sm2ParseCertificate block.Bytes with
      | ok c => simp [hp] at h
      | error e2 => simp [hp] at h
  · intro block e hb hp
    simp [GetX509CertificateFromPEM, hb, hp]

/-- C9: for a successfully parsed certificate, a public key that is
neither ecdsa nor sm2 makes CreateToken return the empty token with a nil
error (no signing attempt, no failure report), while both ecdsa and sm2
public keys route to the same GenECDSAToken elliptic-curve path. -/
theorem c9_create_token_key_type_routing (env : GoEnv) (csp : CryptoSuite)
    (cert : Bytes) (key : CoreKey) (method uri : String) (body : Bytes)
    (compat : Bool) (c : X509Certificate)
    (hparse : GetX509CertificateFromPEM env cert = .ok (some c)) :
    ((∀ curve, c.PublicKey ≠ .sm2 curve) → c.PublicKey ≠ .ecdsa →
      CreateToken env csp cert key method uri body compat = .ok "")
    ∧ (∀ curve, c.PublicKey = .ecdsa ∨ c.PublicKey = .sm2 curve →
      CreateToken env csp cert key method uri body compat
        = toGoResult (GenECDSAToken csp cert key method uri body compat)) := by
  constructor
  · intro hnosm2 hnoec
    simp only [CreateToken, hparse]
  · intro curve hor
    simp only [CreateToken, hparse]
    rcases hor with h | h <;> rw [h]

/-- C10 amended: when PEM decoding finds a block but the national parser
rejects it — so GetX509CertificateFromPEM returns a nil certificate and a
nil error — both GetEnrollmentIDFromPEM and CreateToken dereference the
nil certificate pointer and fault with a runtime nil-pointer panic instead
of returning a string with a nil error. -/
theorem c10_nil_cert_callers_panic (env : GoEnv) (csp : CryptoSuite)
    (cert : Bytes) (key : CoreKey) (method uri : String) (body : Bytes)
    (compat : Bool)
    (h : GetX509CertificateFromPEM env cert = .ok none) :
    GetEnrollmentIDFromPEM env cert = .panic nilDeref
    ∧ CreateToken env csp cert key method uri body compat = .panic nilDeref := by
  constructor
  · simp [GetEnrollmentIDFromPEM, h, GetEnrollmentIDFromX509Certificate]
  · simp [CreateToken, h]

/-- An environment whose PEM decoder finds a block that the national DER
parser then rejects. -/
def envBad : GoEnv :=
  { pemDecode := fun _ => some {}
    sm2ParseCertificate := fun _ => .error "asn1 parse failure"
    parseIP := fun _ => none
    parseAddress := fun _ => none
    asn1MarshalBasicConstraints := fun _ => .ok [] }

/-- A crypto suite whose hash is the identity and whose signer prepends a
zero byte, so signatures are never empty. -/
def cspOk : CryptoSuite :=
  { hash := fun b => .ok b
    sign := fun _ d => .ok (0 :: d) }

/-- C10 counterexample: on an input whose PEM block the national parser
rejects, GetX509CertificateFromPEM yields a nil certificate and nil error,
and both callers then panic on the nil dereference — neither returns a
string with a nil error as the claim states. -/
theorem c10_counterexample :
    GetX509CertificateFromPEM envBad [] = .ok none
    ∧ GetEnrollmentIDFromPEM envBad [] = .panic nilDeref
    ∧ CreateToken envBad cspOk [] {} "" "" [] false = .panic nilDeref :=
  ⟨rfl, rfl, rfl⟩

/-- C10 amended witness: the panic outcome at a concrete environment and
request obtained from the amended theorem. -/
theorem c10_nil_cert_callers_panic_witness :
    GetEnrollmentIDFromPEM envBad [1] = .panic nilDeref
    ∧ CreateToken envBad cspOk [1] {} "GET" "u" [2] true = .panic nilDeref :=
  c10_nil_cert_callers_panic envBad cspOk [1] {} "GET" "u" [2] true rfl

/-- C2 witness: with an identity hash and a signer that prepends a zero
byte, the compatibility-mode call equals the two-part-payload call, and a
successful run emits base64(cert) dot base64(signature). -/
theorem c2_token_payload_witness :
    GenECDSAToken cspOk [1] {} "POST" "u" [2] true
      = genECDSAToken cspOk {} (B64Encode [1]) (B64Encode [2] ++ "." ++ B64Encode [1])
    ∧ genECDSAToken cspOk {} "c" "p" = .ok ("c" ++ "." ++ B64Encode (0 :: strBytes "p")) :=
  ⟨(c2_token_payload_and_emission cspOk [1] {} "POST" "u" [2]).1,
   (c2_token_payload_and_emission cspOk [1] {} "POST" "u" [2]).2.2 "c" "p"
     (strBytes "p") (0 :: strBytes "p") rfl rfl (by simp)⟩

/-- An environment realizing the spec's scenario: one IP literal, one mail
address, everything else a DNS name, and a fixed basic-constraints DER. -/
def envScenario : GoEnv :=
  { pemDecode := fun _ => none
    sm2ParseCertificate := fun _ => .error "asn1 parse failure"
    parseIP := fun s => if s = "10.0.0.1" then some [10, 0, 0, 1] else none
    parseAddress := fun s =>
      if s = "a@b.com" then some { Name := "", Address := "a@b.com" } else none
    asn1MarshalBasicConstraints := fun _ => .ok [48, 3, 1, 1, 255] }

/-- The spec's scenario template. -/
def reqScenario : CertificateRequest :=
  { name := { CommonName := "test" }
    Hosts := ["10.0.0.1", "a@b.com", "example.org"]
    CA := none }

/-- The request the scenario template builds. -/
def tplScenario : Sm2CertificateRequest :=
  { Subject := { CommonName := "test" }
    SignatureAlgorithm := .SM2WithSM3
    IPAddresses := [[10, 0, 0, 1]]
    EmailAddresses := ["a@b.com"]
    DNSNames := ["example.org"] }

/-- C5 witness: on the scenario hosts the built template's SAN lists are
exactly the classified lists. -/
theorem c5_host_classification_witness :
    tplScenario.IPAddresses = reqScenario.Hosts.filterMap envScenario.parseIP
    ∧ tplScenario.EmailAddresses = reqScenario.Hosts.filterMap (fun h =>
        match envScenario.parseIP h with
        | some _ => none
        | none => (envScenario.parseAddress h).map MailAddress.Address)
    ∧ tplScenario.DNSNames = reqScenario.Hosts.filter (fun h =>
        (envScenario.parseIP h).isNone && (envScenario.parseAddress h).isNone) :=
  c5_host_classification envScenario { public := .sm2 .p256Sm2 } reqScenario
    tplScenario rfl

/-- An environment whose basic-constraints marshaller fails. -/
def envMarshalErr : GoEnv :=
  { pemDecode := fun _ => none
    sm2ParseCertificate := fun _ => .error "asn1 parse failure"
    parseIP := fun _ => none
    parseAddress := fun _ => none
    asn1MarshalBasicConstraints := fun _ => .error "asn1 marshal failure" }

/-- C6 witness: a zero path length with the zero-length flag unset is
marshalled and attached as the single critical 2.5.29.19 extra extension,
and a marshalling failure aborts generate with the wrapped error. -/
theorem c6_basic_constraints_witness :
    appendCAInfoToCSRSm2 envScenario {} {}
      = .ok { ExtraExtensions :=
                [{ Id := [2, 5, 29, 19], Critical := true, Value := [48, 3, 1, 1, 255] }] }
    ∧ appendCAInfoToCSRSm2 envMarshalErr {} {} = .error "asn1 marshal failure"
    ∧ generate envMarshalErr { public := .sm2 .p256Sm2 } { CA := some {} } keyFail
        = .error ("failed to appendCAInfoToCSRSm2 :" ++ "asn1 marshal failure") :=
  ⟨(c6_basic_constraints_extension envScenario {} {}).1 [48, 3, 1, 1, 255] rfl,
   ((c6_basic_constraints_extension envMarshalErr {} {}).2 "asn1 marshal failure" rfl).1,
   ((c6_basic_constraints_extension envMarshalErr {} {}).2 "asn1 marshal failure" rfl).2
     { public := .sm2 .p256Sm2 } { CA := some {} } keyFail .p256Sm2 rfl rfl⟩

/-- A crypto suite whose signer returns a zero-length signature. -/
def cspEmptySig : CryptoSuite :=
  { hash := fun b => .ok b
    sign := fun _ _ => .ok [] }

/-- A bccsp key whose provider returns a zero-length signature. -/
def keyEmptySig : BccspKey := { sign := fun _ => .ok [] }

/-- C7 witness: zero-length provider signatures make the token signer and
the CSR serializer fail with their empty-signature errors. -/
theorem c7_empty_signature_witness :
    genECDSAToken cspEmptySig {} "c" "p"
      = .error "BCCSP signature creation failed. Signature must be different than nil"
    ∧ CreateSm2CertificateRequestToMem {} keyEmptySig
      = .error "sm2 CSR signing failed. Signature must be different than nil" :=
  ⟨(c7_empty_signature_rejection cspEmptySig {} "c" "p" envNil
      { public := .ecdsa } {} keyEmptySig).1 (strBytes "p") rfl rfl,
   (c7_empty_signature_rejection cspEmptySig {} "c" "p" envNil
      { public := .ecdsa } {} keyEmptySig).2.1 {} rfl⟩

/-- C8 witness: no PEM block yields the decode error; a found block that
the national parser rejects yields a nil certificate and nil error. -/
theorem c8_pem_witness :
    GetX509CertificateFromPEM envNil [] = .error "Failed to PEM decode certificate"
    ∧ GetX509CertificateFromPEM envBad [] = .ok none :=
  ⟨(c8_pem_error_iff_no_block envNil []).1 rfl,
   (c8_pem_error_iff_no_block envBad []).2.2 {} "asn1 parse failure" rfl rfl⟩

/-- An environment parsing every input to a certificate with an rsa key. -/
def envRsaKey : GoEnv :=
  { pemDecode := fun _ => some {}
    sm2ParseCertificate := fun _ => .ok { PublicKey := .rsa }
    parseIP := fun _ => none
    parseAddress := fun _ => none
    asn1MarshalBasicConstraints := fun _ => .ok [] }

/-- An environment parsing every input to a certificate with an ecdsa key. -/
def envEcdsaKey : GoEnv :=
  { pemDecode := fun _ => some {}
    sm2ParseCertificate := fun _ => .ok { PublicKey := .ecdsa }
    parseIP := fun _ => none
    parseAddress := fun _ => none
    asn1MarshalBasicConstraints := fun _ => .ok [] }

/-- C9 witness: an rsa-keyed certificate yields the empty token with a nil
error, and an ecdsa-keyed certificate routes to the elliptic-curve path. -/
theorem c9_create_token_witness :
    CreateToken envRsaKey cspOk [] {} "" "" [] false = .ok ""
    ∧ CreateToken envEcdsaKey cspOk [] {} "" "" [] false
        = toGoResult (GenECDSAToken cspOk [] {} "" "" [] false) :=
  ⟨(c9_create_token_key_type_routing envRsaKey cspOk [] {} "" "" [] false
      (ParseSm2Certificate2X509 { PublicKey := .rsa }) rfl).1
      (fun _ hc => PublicKey.noConfusion hc) (fun hc => PublicKey.noConfusion hc),
   (c9_create_token_key_type_routing envEcdsaKey cspOk [] {} "" "" [] false
      (ParseSm2Certificate2X509 { PublicKey := .ecdsa }) rfl).2 .p256Sm2 (Or.inl rfl)⟩

end FabricGm
